import Mathlib

/-!
Verification development for the mirror-selection backend
(`src/backend/api/handlers.py`).

The Python handlers are shallowly embedded: the registry is a list of
`Mirror` records, SQLAlchemy queries become list filters / sorts / takes,
and the replacement pipeline becomes an explicit operation trace applied
to a `DBState`.  Parts of the repository that are referenced by
`handlers.py` but live outside the provided sources (the ORM models,
`session_scope`, `REQUIRED_MIRROR_PROTOCOLS`, the geo resolver) are
modelled from the specification; each such definition says so in its
doc comment.
-/

/-- Geo data for a resolved address, as returned by `get_geo_data_by_ip`:
the tuple `(continent, country, latitude, longitude)`.  Coordinates are
embedded as integers (the claims under study depend only on relative
distances, which the spec allows for any monotone-equivalent metric). -/
structure GeoData where
  continent : String
  country : String
  latitude : Int
  longitude : Int
deriving DecidableEq, Repr

/-- The relevant part of the process environment read by
`_get_nearest_mirrors`: `os.environ.get` returns an optional string. -/
structure Env where
  deploy_environment : Option String
  test_ip_address : Option String
deriving DecidableEq, Repr

/-- A `Url` row: one protocol endpoint of a mirror (`db/models.py`,
constructed in `update_mirrors_handler` as `Url(url=url, type=url_type)`). -/
structure Url where
  url : String
  type : String
deriving DecidableEq, Repr

/-- A `Mirror` row.  `to_dict` (in `db/models.py`, outside src/) is
modelled as the identity on this record: the record already carries
exactly the attribute set the handlers read from the dict, with the
`urls` relationship rendered as the protocol-to-address association list
used by the urls dict lookups in the handlers. -/
structure Mirror where
  name : String
  continent : String
  country : String
  ip : String
  latitude : Int
  longitude : Int
  is_expired : Bool
  update_frequency : String
  sponsor_name : String
  sponsor_url : String
  email : String
  urls : List (String × String)
deriving DecidableEq, Repr

/-- Coordinates inside a mirror descriptor (the location field). -/
structure Location where
  lat : Int
  lon : Int
deriving DecidableEq, Repr

/-- One verified mirror descriptor, as consumed by
`update_mirrors_handler` (the dict produced by `get_verified_mirrors`):
the full attribute set plus the protocol-to-address mapping
(the address field). -/
structure MirrorDescriptor where
  name : String
  continent : String
  country : String
  ip : String
  location : Location
  status : String
  update_frequency : String
  sponsor : String
  sponsor_url : String
  email : String
  address : List (String × String)
deriving DecidableEq, Repr

/-- The registry content: the `Mirror` table and the `Url` table. -/
structure DBState where
  mirrors : List Mirror
  urls : List Url
deriving DecidableEq, Repr

/-- `MAX_LENGTH_OF_MIRRORS_LIST = 5` (handlers.py line 26). -/
def MAX_LENGTH_OF_MIRRORS_LIST : Nat := 5

/-- Modelled from the spec: `REQUIRED_MIRROR_PROTOCOLS` is imported from
`api/mirrors_update.py`, which is not under src/.  The spec describes it
as "an ordered pair, e.g. https preferred over http". -/
def REQUIRED_MIRROR_PROTOCOLS : List String := ["https", "http"]

/-- The Dev-environment address override at the top of
`_get_nearest_mirrors` (handlers.py lines 46-52): when
`DEPLOY_ENVIRONMENT` is `Dev` or `Development` the caller-supplied
address is replaced by `TEST_IP_ADDRESS` (falling back, via Python
truthiness, to the literal default when unset or empty). -/
def effectiveIp (env : Env) (ip_address : String) : String :=
  if env.deploy_environment = some "Dev" ∨ env.deploy_environment = some "Development" then
    match env.test_ip_address with
    | some s => if s = "" then "77.121.201.30" else s
    | none => "77.121.201.30"
  else ip_address

/-- Modelled from the spec: `Mirror.conditional_distance` lives in
`db/models.py`, outside src/.  The spec requires only "a monotone
surrogate for great-circle distance"; the squared Euclidean distance on
the coordinate plane is such a surrogate and keeps everything
computable. -/
def conditional_distance (lon lat : Int) (m : Mirror) : Int :=
  (m.latitude - lat) * (m.latitude - lat) + (m.longitude - lon) * (m.longitude - lon)

/-- Ascending-distance comparison used by the `order_by` clauses. -/
def distance_le (lon lat : Int) (a b : Mirror) : Prop :=
  conditional_distance lon lat a ≤ conditional_distance lon lat b

instance : DecidableRel (distance_le lon lat) :=
  fun _ _ => inferInstanceAs (Decidable (_ ≤ _))

/-- The Tier A query (handlers.py lines 69-75): non-expired mirrors of
the resolved country and continent, no ordering, `limit 5`. -/
def mirrors_by_country (g : GeoData) (db : List Mirror) : List Mirror :=
  (db.filter fun m =>
    m.continent == g.continent && m.country == g.country && m.is_expired == false).take
    MAX_LENGTH_OF_MIRRORS_LIST

/-- The Tier B query (handlers.py lines 77-87): non-expired mirrors of
the resolved continent, ordered by `conditional_distance`, `limit 5`. -/
def mirrors_by_continent (g : GeoData) (db : List Mirror) : List Mirror :=
  (List.insertionSort (distance_le g.longitude g.latitude)
    (db.filter fun m => m.continent == g.continent && m.is_expired == false)).take
    MAX_LENGTH_OF_MIRRORS_LIST

/-- The Tier C query (handlers.py lines 89-98): all non-expired mirrors,
ordered by `conditional_distance`, `limit 5`. -/
def all_rest_mirrors (g : GeoData) (db : List Mirror) : List Mirror :=
  (List.insertionSort (distance_le g.longitude g.latitude)
    (db.filter fun m => m.is_expired == false)).take
    MAX_LENGTH_OF_MIRRORS_LIST

/-- The concatenated candidate pool (handlers.py lines 103-105), before
the final cap. -/
def suitable_mirrors (g : GeoData) (db : List Mirror) : List Mirror :=
  mirrors_by_country g db ++ mirrors_by_continent g db ++ all_rest_mirrors g db

/-- `_get_nearest_mirrors` (handlers.py lines 31-119).  The geo resolver
(`get_geo_data_by_ip`, in `api/utils.py`) is passed in as an opaque
function, exactly as the spec treats it.  The registry is the list of
`Mirror` rows; `to_dict` is the identity on the embedded record. -/
def _get_nearest_mirrors (env : Env) (geo : String → Option GeoData)
    (db : List Mirror) (ip_address : String) (empty_for_unknown_ip : Bool) :
    List Mirror :=
  match geo (effectiveIp env ip_address) with
  | none =>
    if empty_for_unknown_ip = false then db.filter (fun m => m.is_expired == false)
    else []
  | some g => (suitable_mirrors g db).take MAX_LENGTH_OF_MIRRORS_LIST

/-- The `order_by (Mirror.continent, Mirror.country)` comparison of
`get_all_mirrors`, as a total boolean lexicographic comparison on the
two string columns. -/
def all_mirrors_le (a b : Mirror) : Bool :=
  match compare a.continent b.continent with
  | Ordering.lt => true
  | Ordering.gt => false
  | Ordering.eq => compare a.country b.country != Ordering.gt

/-- `get_all_mirrors` (handlers.py lines 174-186): every `Mirror` row,
ordered by continent then country.  Note: the query has no
`is_expired` filter. -/
def get_all_mirrors (db : List Mirror) : List Mirror :=
  List.insertionSort (fun a b => all_mirrors_le a b = true) db

/-- Error values surfaced by the facade handlers:
`BadRequestFormatExceptioin` carries the message format, the offending
value and the allowed set; `type_error` stands for the `TypeError`
Python raises when `os.path.join` receives `None`. -/
inductive HandlerFailure where
  | bad_request (message : String) (value : String) (allowed : String)
  | type_error
deriving DecidableEq, Repr

/-- Sequential fallible mapping: the Python `for` loop that builds a
list and lets any raised exception abort the whole handler. -/
def mapOpt (f : α → Option β) : List α → Option (List β)
  | [] => some []
  | x :: xs =>
    match f x with
    | none => none
    | some y => (mapOpt f xs).map (fun ys => y :: ys)

/-- Shallow model of `os.path.join` on relative components: joining with
a single slash. -/
def path_join (parts : List String) : String :=
  String.intercalate "/" parts

/-- `get_mirrors_list` (handlers.py lines 189-222).  Configuration
(`get_config`, outside src/) enters as the version list and the
repository name-to-path association.  The per-mirror URL choice is
`urls.get(P[0]) or urls.get(P[1])`; when both lookups miss, the Python
code passes `None` to `os.path.join`, raising `TypeError`, modelled by
`HandlerFailure.type_error`. -/
def get_mirrors_list (env : Env) (geo : String → Option GeoData)
    (db : List Mirror) (versions : List String)
    (repos : List (String × String)) (ip_address version repository : String) :
    Except HandlerFailure String :=
  if versions.contains version = false then
    Except.error (HandlerFailure.bad_request
      "Unknown version %s. Allowed list of versions %s"
      version (String.intercalate ", " versions))
  else
    match List.lookup repository repos with
    | none =>
      Except.error (HandlerFailure.bad_request
        "Unknown repository %s. Allowed list of repositories %s"
        repository (String.intercalate ", " (repos.map Prod.fst)))
    | some repo_path =>
      match mapOpt (fun m =>
          ((List.lookup (REQUIRED_MIRROR_PROTOCOLS[0]!) m.urls).orElse
            (fun _ => List.lookup (REQUIRED_MIRROR_PROTOCOLS[1]!) m.urls)).map
            (fun mirror_url => path_join [mirror_url, version, repo_path]))
          (_get_nearest_mirrors env geo db ip_address false) with
      | none => Except.error HandlerFailure.type_error
      | some mirrors_list => Except.ok (String.intercalate "\n" mirrors_list)

/-- `_set_isos_link_for_mirror` (handlers.py lines 225-241): picks the
first stored address whose protocol is in `REQUIRED_MIRROR_PROTOCOLS`
and attaches the isos link; `next(iter([]))` raises `StopIteration`,
modelled as `none`. -/
def _set_isos_link_for_mirror (version arch : String) (m : Mirror) :
    Option (Mirror × String) :=
  match (m.urls.filter fun p => REQUIRED_MIRROR_PROTOCOLS.contains p.1).head? with
  | none => none
  | some p => some (m, path_join [p.2, version, "isos", arch])

/-- The `defaultdict(list)` grouping by country, preserving first-seen
key order and per-key insertion order. -/
def addToGroup (groups : List (String × List Mirror)) (m : Mirror) :
    List (String × List Mirror) :=
  match groups with
  | [] => [(m.country, [m])]
  | (c, ms) :: rest =>
    if c = m.country then (c, ms ++ [m]) :: rest
    else (c, ms) :: addToGroup rest m

/-- Grouping of `get_all_mirrors` output by country
(handlers.py lines 249-251). -/
def group_by_country (ms : List Mirror) : List (String × List Mirror) :=
  ms.foldl addToGroup []

/-- `get_isos_list_by_countries` (handlers.py lines 244-270): groups all
mirrors by country with isos links attached, then computes the nearest
set with `empty_for_unknown_ip=True` and attaches links to it too.  Any
`StopIteration` from link building aborts the handler (`none`). -/
def get_isos_list_by_countries (env : Env) (geo : String → Option GeoData)
    (db : List Mirror) (arch version ip_address : String) :
    Option (List (String × List (Mirror × String)) × List (Mirror × String)) :=
  match mapOpt (fun cg =>
      (mapOpt (_set_isos_link_for_mirror version arch) cg.2).map
        (fun ms => (cg.1, ms)))
      (group_by_country (get_all_mirrors db)) with
  | none => none
  | some mirrors_by_countries =>
    match mapOpt (_set_isos_link_for_mirror version arch)
        (_get_nearest_mirrors env geo db ip_address true) with
    | none => none
    | some nearest_mirrors => some (mirrors_by_countries, nearest_mirrors)

/-- One operation issued to the ORM session by
`update_mirrors_handler`. -/
inductive SessionOp where
  | deleteAllMirrors
  | deleteAllUrls
  | addUrl (u : Url)
  | addMirror (m : Mirror)
deriving DecidableEq, Repr

/-- The `Mirror(...)` construction inside `update_mirrors_handler`
(handlers.py lines 154-167): `is_expired` is derived from the status
field, `update_frequency` is the date-parse result, and the url set is
the protocol-to-address mapping of the descriptor. -/
def mirror_record_of_descriptor (parsed_update_frequency : String)
    (d : MirrorDescriptor) : Mirror :=
  { name := d.name
    continent := d.continent
    country := d.country
    ip := d.ip
    latitude := d.location.lat
    longitude := d.location.lon
    is_expired := d.status == "expired"
    update_frequency := parsed_update_frequency
    sponsor_name := d.sponsor
    sponsor_url := d.sponsor_url
    email := d.email
    urls := d.address }

/-- The per-descriptor insert loop of `update_mirrors_handler`
(handlers.py lines 145-168), as the operation trace it issues.
Modelled from the spec: `dateparse` stands for the external
`dateparser.parse`, and `ok` is a failure oracle standing for any
exception raised "during construction or insertion" of the records of
a descriptor (the concrete failure sources — the date parser, the database
session — are outside src/); a failure aborts the loop. -/
def build_insert_ops (ok : MirrorDescriptor → Bool) (dateparse : String → String) :
    List MirrorDescriptor → Option (List SessionOp)
  | [] => some []
  | d :: rest =>
    if ok d then
      (build_insert_ops ok dateparse rest).map fun ops =>
        d.address.map (fun p => SessionOp.addUrl { url := p.2, type := p.1 }) ++
          SessionOp.addMirror
            (mirror_record_of_descriptor (dateparse d.update_frequency) d) :: ops
    else none

/-- The full operation trace of the unit of work inside `session_scope`
(handlers.py lines 142-169): delete every `Mirror`, then every `Url`,
then the inserts. -/
def build_unit_of_work (ok : MirrorDescriptor → Bool) (dateparse : String → String)
    (descs : List MirrorDescriptor) : Option (List SessionOp) :=
  (build_insert_ops ok dateparse descs).map fun ops =>
    SessionOp.deleteAllMirrors :: SessionOp.deleteAllUrls :: ops

/-- Effect of one session operation on the registry content. -/
def applyOp (db : DBState) : SessionOp → DBState
  | SessionOp.deleteAllMirrors => { db with mirrors := [] }
  | SessionOp.deleteAllUrls => { db with urls := [] }
  | SessionOp.addUrl u => { db with urls := db.urls ++ [u] }
  | SessionOp.addMirror m => { db with mirrors := db.mirrors ++ [m] }

/-- Applying a whole trace. -/
def applyOps (db : DBState) : List SessionOp → DBState
  | [] => db
  | op :: ops => applyOps (applyOp db op) ops

/-- `update_mirrors_handler` (handlers.py lines 122-171) on the registry
state, parameterised by the verified-mirror descriptors (the config
loading and verification in lines 123-141 are external collaborators).
Modelled from the spec: `session_scope` (in `db/utils.py`, outside
src/) is the transactional unit of work — "On any failure during
construction or insertion, the entire unit of work must roll back,
leaving the prior registry content intact".  The first component is the
commit result (`none` = the cycle failed and rolled back), the second
the registry content observable afterwards. -/
def update_mirrors_handler (ok : MirrorDescriptor → Bool)
    (dateparse : String → String) (descs : List MirrorDescriptor)
    (db : DBState) : Option DBState × DBState :=
  match build_unit_of_work ok dateparse descs with
  | some ops => (some (applyOps db ops), applyOps db ops)
  | none => (none, db)

/-! ### Concrete fixtures used by witnesses and counterexamples -/

/-- A production-like environment: no Dev override. -/
def envProd : Env := { deploy_environment := none, test_ip_address := none }

/-- A Dev environment with no `TEST_IP_ADDRESS`. -/
def envDev : Env := { deploy_environment := some "Dev", test_ip_address := none }

/-- A geo resolver that always fails. -/
def geoNone : String → Option GeoData := fun _ => none

/-- A caller location: Germany / Europe, at the coordinates of
`mirrorA`. -/
def gDE : GeoData :=
  { continent := "Europe", country := "Germany", latitude := 50, longitude := 10 }

/-- A geo resolver that resolves every address to `gDE`. -/
def geoDE : String → Option GeoData := fun _ => some gDE

/-- Scenario mirror A: Germany / Europe, at the caller location. -/
def mirrorA : Mirror :=
  { name := "mirror-a.example"
    continent := "Europe"
    country := "Germany"
    ip := "203.0.113.1"
    latitude := 50
    longitude := 10
    is_expired := false
    update_frequency := "daily"
    sponsor_name := "SponsorA"
    sponsor_url := "https://sponsor-a.example"
    email := "a@example.com"
    urls := [("https", "https://mirror-a.example/repo")] }

/-- Scenario mirror B: France / Europe, nearer than C. -/
def mirrorB : Mirror :=
  { name := "mirror-b.example"
    continent := "Europe"
    country := "France"
    ip := "203.0.113.2"
    latitude := 47
    longitude := 2
    is_expired := false
    update_frequency := "daily"
    sponsor_name := "SponsorB"
    sponsor_url := "https://sponsor-b.example"
    email := "b@example.com"
    urls := [("https", "https://mirror-b.example/repo")] }

/-- Scenario mirror C: Brazil / South America. -/
def mirrorC : Mirror :=
  { name := "mirror-c.example"
    continent := "South America"
    country := "Brazil"
    ip := "203.0.113.3"
    latitude := -10
    longitude := -55
    is_expired := false
    update_frequency := "daily"
    sponsor_name := "SponsorC"
    sponsor_url := "https://sponsor-c.example"
    email := "c@example.com"
    urls := [("https", "https://mirror-c.example/repo")] }

/-- An expired mirror with a required-protocol url. -/
def mirrorExpired : Mirror :=
  { name := "mirror-old.example"
    continent := "Europe"
    country := "Germany"
    ip := "203.0.113.4"
    latitude := 51
    longitude := 11
    is_expired := true
    update_frequency := "daily"
    sponsor_name := "SponsorOld"
    sponsor_url := "https://sponsor-old.example"
    email := "old@example.com"
    urls := [("https", "https://mirror-old.example/repo")] }

/-- A non-expired mirror exposing neither required protocol. -/
def mirrorNoProto : Mirror :=
  { name := "mirror-rsync.example"
    continent := "Europe"
    country := "Germany"
    ip := "203.0.113.5"
    latitude := 52
    longitude := 12
    is_expired := false
    update_frequency := "daily"
    sponsor_name := "SponsorR"
    sponsor_url := "https://sponsor-r.example"
    email := "r@example.com"
    urls := [("rsync", "rsync://mirror-rsync.example/repo")] }

/-- A registry of six distinct non-expired mirrors. -/
def dbSix : List Mirror :=
  [mirrorA, mirrorB, mirrorC,
    { mirrorA with name := "mirror-d.example", latitude := 40 },
    { mirrorB with name := "mirror-e.example", latitude := 41 },
    { mirrorC with name := "mirror-f.example", latitude := 42 }]

/-- An active verified-mirror descriptor matching `mirrorA`. -/
def descA : MirrorDescriptor :=
  { name := "mirror-a.example"
    continent := "Europe"
    country := "Germany"
    ip := "203.0.113.1"
    location := { lat := 50, lon := 10 }
    status := "active"
    update_frequency := "daily"
    sponsor := "SponsorA"
    sponsor_url := "https://sponsor-a.example"
    email := "a@example.com"
    address := [("https", "https://mirror-a.example/repo")] }

/-- An expired verified-mirror descriptor. -/
def descExpired : MirrorDescriptor :=
  { name := "mirror-old.example"
    continent := "Europe"
    country := "Germany"
    ip := "203.0.113.4"
    location := { lat := 51, lon := 11 }
    status := "expired"
    update_frequency := "daily"
    sponsor := "SponsorOld"
    sponsor_url := "https://sponsor-old.example"
    email := "old@example.com"
    address := [("https", "https://mirror-old.example/repo")] }

/-- An empty registry. -/
def dbEmpty : DBState := { mirrors := [], urls := [] }

/-- A small non-empty registry state. -/
def dbStateA : DBState :=
  { mirrors := [mirrorA, mirrorB], urls := [{ url := "https://mirror-a.example/repo", type := "https" }] }

/-- A failure oracle under which every descriptor succeeds. -/
def okAll : MirrorDescriptor → Bool := fun _ => true

/-- A failure oracle under which every descriptor fails. -/
def okNone : MirrorDescriptor → Bool := fun _ => false

/-- A date parser that keeps the raw string. -/
def dpId : String → String := fun s => s

/-! ### Helper lemmas -/

/-- Every element of a successful `mapOpt` run comes from a source
element on which the function succeeded. -/
theorem mapOpt_mem {f : α → Option β} :
    ∀ {l : List α} {l2 : List β}, mapOpt f l = some l2 → ∀ {y : β}, y ∈ l2 →
      ∃ x ∈ l, f x = some y := by
  intro l
  induction l with
  | nil =>
    intro l2 h y hy
    cases h
    simp at hy
  | cons x xs ih =>
    intro l2 h y hy
    unfold mapOpt at h
    cases hfx : f x with
    | none => rw [hfx] at h; simp at h
    | some z =>
      rw [hfx] at h
      cases hrest : mapOpt f xs with
      | none => rw [hrest] at h; simp at h
      | some ys =>
        rw [hrest] at h
        have h2 : z :: ys = l2 := by simpa using h
        subst h2
        rcases List.mem_cons.mp hy with hz | hys
        · exact ⟨x, List.mem_cons_self x xs, hz ▸ hfx⟩
        · obtain ⟨a, ha, hfa⟩ := ih hrest hys
          exact ⟨a, List.mem_cons_of_mem x ha, hfa⟩

/-- `mapOpt` fails whenever it would have to map a failing element. -/
theorem mapOpt_eq_none_of_mem {f : α → Option β} :
    ∀ {l : List α} {a : α}, a ∈ l → f a = none → mapOpt f l = none := by
  intro l
  induction l with
  | nil => intro a ha _; simp at ha
  | cons x xs ih =>
    intro a ha hfa
    unfold mapOpt
    rcases List.mem_cons.mp ha with hx | hxs
    · rw [hx] at hfa
      rw [hfa]
    · cases hfx : f x with
      | none => rfl
      | some y => rw [ih hxs hfa]; rfl

/-- Membership facts for the Tier A query. -/
theorem mem_mirrors_by_country {g : GeoData} {db : List Mirror} {m : Mirror}
    (h : m ∈ mirrors_by_country g db) :
    m ∈ db ∧ m.continent = g.continent ∧ m.country = g.country ∧
      m.is_expired = false := by
  have h2 := List.mem_of_mem_take h
  rw [List.mem_filter] at h2
  obtain ⟨hm, hp⟩ := h2
  simp only [Bool.and_eq_true, beq_iff_eq] at hp
  exact ⟨hm, hp.1.1, hp.1.2, hp.2⟩

/-- Membership facts for the Tier B query. -/
theorem mem_mirrors_by_continent {g : GeoData} {db : List Mirror} {m : Mirror}
    (h : m ∈ mirrors_by_continent g db) :
    m ∈ db ∧ m.continent = g.continent ∧ m.is_expired = false := by
  have h2 := (List.perm_insertionSort (distance_le g.longitude g.latitude)
    (db.filter fun m => m.continent == g.continent && m.is_expired == false)).mem_iff.mp
    (List.mem_of_mem_take h)
  rw [List.mem_filter] at h2
  obtain ⟨hm, hp⟩ := h2
  simp only [Bool.and_eq_true, beq_iff_eq] at hp
  exact ⟨hm, hp.1, hp.2⟩

/-- Membership facts for the Tier C query. -/
theorem mem_all_rest_mirrors {g : GeoData} {db : List Mirror} {m : Mirror}
    (h : m ∈ all_rest_mirrors g db) : m ∈ db ∧ m.is_expired = false := by
  have h2 := (List.perm_insertionSort (distance_le g.longitude g.latitude)
    (db.filter fun m => m.is_expired == false)).mem_iff.mp
    (List.mem_of_mem_take h)
  rw [List.mem_filter] at h2
  obtain ⟨hm, hp⟩ := h2
  simp only [beq_iff_eq] at hp
  exact ⟨hm, hp⟩

/-- Every mirror returned by the tiered selector is non-expired. -/
theorem nearest_not_expired {env : Env} {geo : String → Option GeoData}
    {db : List Mirror} {ip : String} {b : Bool} {m : Mirror}
    (h : m ∈ _get_nearest_mirrors env geo db ip b) : m.is_expired = false := by
  unfold _get_nearest_mirrors at h
  cases hg : geo (effectiveIp env ip) with
  | none =>
    rw [hg] at h
    cases b with
    | false =>
      have h2 : m ∈ List.filter (fun m => m.is_expired == false) db := by simpa using h
      rw [List.mem_filter] at h2
      simpa using h2.2
    | true => simp at h
  | some g =>
    rw [hg] at h
    have h2 := List.mem_of_mem_take h
    rw [suitable_mirrors, List.append_assoc, List.mem_append, List.mem_append] at h2
    rcases h2 with hA | hB | hC
    · exact (mem_mirrors_by_country hA).2.2.2
    · exact (mem_mirrors_by_continent hB).2.2
    · exact (mem_all_rest_mirrors hC).2

/-- A successful isos-link attachment keeps the mirror unchanged. -/
theorem set_isos_link_fst {version arch : String} {m : Mirror} {pr : Mirror × String}
    (h : _set_isos_link_for_mirror version arch m = some pr) : pr.1 = m := by
  unfold _set_isos_link_for_mirror at h
  cases hh : (m.urls.filter fun p => REQUIRED_MIRROR_PROTOCOLS.contains p.1).head? with
  | none => rw [hh] at h; simp at h
  | some p =>
    rw [hh] at h
    simp only [Option.some.injEq] at h
    rw [← h]

/-- Applying a concatenated trace is sequential application. -/
theorem applyOps_append (db : DBState) (l1 l2 : List SessionOp) :
    applyOps db (l1 ++ l2) = applyOps (applyOps db l1) l2 := by
  induction l1 generalizing db with
  | nil => rfl
  | cons op ops ih => simp only [List.cons_append, applyOps]; exact ih _

/-- Url insertions leave the mirror table unchanged. -/
theorem applyOps_addUrls_mirrors (db : DBState) (ps : List (String × String)) :
    (applyOps db (ps.map fun p => SessionOp.addUrl { url := p.2, type := p.1 })).mirrors
      = db.mirrors := by
  induction ps generalizing db with
  | nil => rfl
  | cons p ps ih => simp only [List.map_cons, applyOps, applyOp]; exact ih _

/-- A successful insert trace appends exactly the mirror records built
from the descriptors, in order. -/
theorem build_insert_ops_mirrors (ok : MirrorDescriptor → Bool)
    (dateparse : String → String) :
    ∀ (descs : List MirrorDescriptor) (ops : List SessionOp) (st : DBState),
      build_insert_ops ok dateparse descs = some ops →
      (applyOps st ops).mirrors = st.mirrors ++
        descs.map (fun d => mirror_record_of_descriptor (dateparse d.update_frequency) d) := by
  intro descs
  induction descs with
  | nil =>
    intro ops st h
    cases h
    simp [applyOps]
  | cons d rest ih =>
    intro ops st h
    unfold build_insert_ops at h
    by_cases hok : ok d = true
    · rw [if_pos hok] at h
      cases hrest : build_insert_ops ok dateparse rest with
      | none => rw [hrest] at h; simp at h
      | some ops2 =>
        rw [hrest] at h
        have h2 : (d.address.map fun p => SessionOp.addUrl { url := p.2, type := p.1 }) ++
            SessionOp.addMirror
              (mirror_record_of_descriptor (dateparse d.update_frequency) d) :: ops2 = ops := by
          simpa using h
        subst h2
        rw [applyOps_append]
        simp only [applyOps]
        rw [ih ops2 _ hrest]
        simp only [applyOp]
        rw [applyOps_addUrls_mirrors]
        simp
    · rw [if_neg hok] at h
      simp at h

/-- A successful insert trace consists only of `addUrl` and `addMirror`
operations. -/
theorem build_insert_ops_only_adds (ok : MirrorDescriptor → Bool)
    (dateparse : String → String) :
    ∀ (descs : List MirrorDescriptor) (ops : List SessionOp),
      build_insert_ops ok dateparse descs = some ops →
      ∀ op ∈ ops, (∃ u, op = SessionOp.addUrl u) ∨ (∃ m, op = SessionOp.addMirror m) := by
  intro descs
  induction descs with
  | nil =>
    intro ops h op hop
    cases h
    simp at hop
  | cons d rest ih =>
    intro ops h op hop
    unfold build_insert_ops at h
    by_cases hok : ok d = true
    · rw [if_pos hok] at h
      cases hrest : build_insert_ops ok dateparse rest with
      | none => rw [hrest] at h; simp at h
      | some ops2 =>
        rw [hrest] at h
        have h2 : (d.address.map fun p => SessionOp.addUrl { url := p.2, type := p.1 }) ++
            SessionOp.addMirror
              (mirror_record_of_descriptor (dateparse d.update_frequency) d) :: ops2 = ops := by
          simpa using h
        subst h2
        rw [List.mem_append] at hop
        rcases hop with hurl | hop2
        · rw [List.mem_map] at hurl
          obtain ⟨p, _, hp⟩ := hurl
          exact Or.inl ⟨_, hp.symm⟩
        · rcases List.mem_cons.mp hop2 with hm | hop3
          · exact Or.inr ⟨_, hm⟩
          · exact ih ops2 hrest op hop3
    · rw [if_neg hok] at h
      simp at h

/-! ### Claims -/

/-- Claim C1, counterexample: the claim says expired mirrors never appear
in the output of `get_all_mirrors` or `get_isos_list_by_countries`, but
for a registry holding one expired mirror, `get_all_mirrors` returns it
and the by-country grouping of `get_isos_list_by_countries` lists it. -/
theorem c1_counterexample :
    mirrorExpired ∈ get_all_mirrors [mirrorExpired] ∧
    mirrorExpired.is_expired = true ∧
    ∃ cg ∈ ((get_isos_list_by_countries envProd geoNone [mirrorExpired] "x86_64" "8"
        "203.0.113.9").map Prod.fst).getD [],
      ∃ pr ∈ cg.2, pr.1 = mirrorExpired := by
  decide

/-- Claim C1, amended: expired mirrors never appear in the output of the
tiered selector `_get_nearest_mirrors`, nor in the nearest-mirrors
component of `get_isos_list_by_countries`; but `get_all_mirrors` (and
therefore the by-country grouping built from it) applies no
`is_expired` filter and returns every stored mirror, expired ones
included (its output is a permutation of the whole registry). -/
theorem c1_amended_expired_exclusion (env : Env) (geo : String → Option GeoData)
    (db : List Mirror) (ip arch version : String) (b : Bool) :
    (∀ m ∈ _get_nearest_mirrors env geo db ip b, m.is_expired = false) ∧
    (get_all_mirrors db).Perm db ∧
    (∀ pr ∈ ((get_isos_list_by_countries env geo db arch version ip).map Prod.snd).getD [],
      pr.1.is_expired = false) := by
  refine ⟨fun m hm => nearest_not_expired hm, List.perm_insertionSort _ db, ?_⟩
  intro pr hpr
  unfold get_isos_list_by_countries at hpr
  cases h1 : mapOpt (fun cg =>
      (mapOpt (_set_isos_link_for_mirror version arch) cg.2).map (fun ms => (cg.1, ms)))
      (group_by_country (get_all_mirrors db)) with
  | none => rw [h1] at hpr; simp at hpr
  | some gl =>
    rw [h1] at hpr
    cases h2 : mapOpt (_set_isos_link_for_mirror version arch)
        (_get_nearest_mirrors env geo db ip true) with
    | none => rw [h2] at hpr; simp at hpr
    | some nl =>
      rw [h2] at hpr
      simp only [Option.map_some, Option.getD_some] at hpr
      obtain ⟨m, hm, hlink⟩ := mapOpt_mem h2 hpr
      rw [set_isos_link_fst hlink]
      exact nearest_not_expired hm

/-- Claim C2 (confirmed against the spec-modelled transactional
session): if the replacement unit of work fails at any point, the
registry content observable afterwards is exactly the content from
before the call — no partially replaced state remains. -/
theorem c2_replacement_atomic (ok : MirrorDescriptor → Bool)
    (dateparse : String → String) (descs : List MirrorDescriptor) (db : DBState)
    (h : (update_mirrors_handler ok dateparse descs db).fst = none) :
    (update_mirrors_handler ok dateparse descs db).snd = db := by
  unfold update_mirrors_handler at h ⊢
  cases hb : build_unit_of_work ok dateparse descs with
  | some ops => rw [hb] at h; simp at h
  | none => rfl

/-- Witness for C2: a replacement cycle in which the first descriptor
fails leaves the prior two-mirror registry intact. -/
theorem c2_witness :
    (update_mirrors_handler okNone dpId [descA] dbStateA).snd = dbStateA :=
  c2_replacement_atomic okNone dpId [descA] dbStateA rfl

/-- Claim C3, counterexample: for the spec scenario (registry A/B/C,
caller resolved to Germany at the coordinates of A) the selector does
not return the claimed list [A, B, C]: mirrors satisfying several tiers
are not deduplicated. -/
theorem c3_counterexample :
    _get_nearest_mirrors envProd geoDE [mirrorA, mirrorB, mirrorC] "198.51.100.7" false
      ≠ [mirrorA, mirrorB, mirrorC] := by
  decide

/-- Claim C3, amended: in the scenario the tier lists are [A], [A, B]
and [A, B, C]; their concatenation truncated to 5 gives
[A, A, B, A, B]. -/
theorem c3_amended_scenario :
    _get_nearest_mirrors envProd geoDE [mirrorA, mirrorB, mirrorC] "198.51.100.7" false
      = [mirrorA, mirrorA, mirrorB, mirrorA, mirrorB] := by
  decide

/-- Claim C4, counterexample: for a registry of six non-expired mirrors
and an unresolvable caller address, `_get_nearest_mirrors` returns all
six mirrors — more than K = 5 — so the bound does not hold for every
input. -/
theorem c4_counterexample :
    ¬ ((_get_nearest_mirrors envProd geoNone dbSix "203.0.113.9" false).length
      ≤ MAX_LENGTH_OF_MIRRORS_LIST) := by
  decide

/-- Claim C4, amended: whenever geo resolution of the caller address
succeeds, `_get_nearest_mirrors` returns at most K = 5 mirrors, and
returns strictly fewer than 5 only if the combined candidate pool of
the three tiers (before the final cap) has fewer than 5 entries. -/
theorem c4_amended_result_bound (env : Env) (geo : String → Option GeoData)
    (db : List Mirror) (ip : String) (b : Bool) (g : GeoData)
    (hg : geo (effectiveIp env ip) = some g) :
    (_get_nearest_mirrors env geo db ip b).length ≤ MAX_LENGTH_OF_MIRRORS_LIST ∧
    ((_get_nearest_mirrors env geo db ip b).length < MAX_LENGTH_OF_MIRRORS_LIST →
      (suitable_mirrors g db).length < MAX_LENGTH_OF_MIRRORS_LIST) := by
  unfold _get_nearest_mirrors
  rw [hg]
  rw [List.length_take]
  omega

/-- Witness for C4: the amended bound at the concrete A/B/C scenario. -/
theorem c4_witness :
    (_get_nearest_mirrors envProd geoDE [mirrorA, mirrorB, mirrorC] "198.51.100.7"
        false).length ≤ MAX_LENGTH_OF_MIRRORS_LIST ∧
    ((_get_nearest_mirrors envProd geoDE [mirrorA, mirrorB, mirrorC] "198.51.100.7"
        false).length < MAX_LENGTH_OF_MIRRORS_LIST →
      (suitable_mirrors gDE [mirrorA, mirrorB, mirrorC]).length
        < MAX_LENGTH_OF_MIRRORS_LIST) :=
  c4_amended_result_bound envProd geoDE [mirrorA, mirrorB, mirrorC] "198.51.100.7"
    false gDE rfl

/-- Claim C5 (confirmed): when geo resolution fails, the selector with
`empty_for_unknown_ip = false` returns exactly the list of all
non-expired mirrors (in particular the same set, with no truncation),
and with `empty_for_unknown_ip = true` it returns the empty list; both
branches return normally, so resolution failure is never propagated as
an error. -/
theorem c5_unknown_ip_fallback (env : Env) (geo : String → Option GeoData)
    (db : List Mirror) (ip : String)
    (h : geo (effectiveIp env ip) = none) :
    _get_nearest_mirrors env geo db ip false
      = db.filter (fun m => m.is_expired == false) ∧
    _get_nearest_mirrors env geo db ip true = [] := by
  unfold _get_nearest_mirrors
  rw [h]
  exact ⟨rfl, rfl⟩

/-- Witness for C5: the fallback at a concrete two-mirror registry with
an always-failing resolver. -/
theorem c5_witness :
    _get_nearest_mirrors envProd geoNone [mirrorA, mirrorExpired] "203.0.113.9" false
      = List.filter (fun m => m.is_expired == false) [mirrorA, mirrorExpired] ∧
    _get_nearest_mirrors envProd geoNone [mirrorA, mirrorExpired] "203.0.113.9" true
      = [] :=
  c5_unknown_ip_fallback envProd geoNone [mirrorA, mirrorExpired] "203.0.113.9" rfl

/-- Claim C6 (confirmed): tier priority.  If `M1` is a Tier A candidate
for the resolved location (non-expired registry mirror whose continent
and country both match) and `M2` occurs in the selector result only as
a Tier B or Tier C candidate (it does not satisfy the Tier A match),
then every occurrence of `M2` in the result is preceded by an
occurrence of `M1`, regardless of their relative distances. -/
theorem c6_tier_priority (env : Env) (geo : String → Option GeoData)
    (db : List Mirror) (ip : String) (b : Bool) (g : GeoData) (M1 M2 : Mirror)
    (hg : geo (effectiveIp env ip) = some g)
    (h1m : M1 ∈ db) (h1e : M1.is_expired = false)
    (h1c : M1.continent = g.continent) (h1k : M1.country = g.country)
    (h2 : ¬(M2.continent = g.continent ∧ M2.country = g.country)) :
    ∀ j : Nat, (_get_nearest_mirrors env geo db ip b)[j]? = some M2 →
      ∃ i : Nat, i < j ∧ (_get_nearest_mirrors env geo db ip b)[i]? = some M1 := by
  intro j hj
  have hA5 : (mirrors_by_country g db).length ≤ MAX_LENGTH_OF_MIRRORS_LIST := by
    rw [mirrors_by_country]
    exact List.length_take_le _ _
  have hres : _get_nearest_mirrors env geo db ip b
      = mirrors_by_country g db ++
          (mirrors_by_continent g db ++ all_rest_mirrors g db).take
            (MAX_LENGTH_OF_MIRRORS_LIST - (mirrors_by_country g db).length) := by
    unfold _get_nearest_mirrors
    rw [hg]
    show (suitable_mirrors g db).take MAX_LENGTH_OF_MIRRORS_LIST = _
    rw [suitable_mirrors, List.append_assoc, List.take_append_eq_append_take,
      List.take_of_length_le hA5]
  rw [hres] at hj ⊢
  have hjA : (mirrors_by_country g db).length ≤ j := by
    by_contra hlt
    push_neg at hlt
    rw [List.getElem?_append_left hlt] at hj
    obtain ⟨_, hc, hk, _⟩ := mem_mirrors_by_country (List.getElem?_mem hj)
    exact h2 ⟨hc, hk⟩
  obtain ⟨hjlen, _⟩ := List.getElem?_eq_some_iff.mp hj
  have hj5 : j < MAX_LENGTH_OF_MIRRORS_LIST := by
    have hSlen : ((mirrors_by_continent g db ++ all_rest_mirrors g db).take
        (MAX_LENGTH_OF_MIRRORS_LIST - (mirrors_by_country g db).length)).length
        ≤ MAX_LENGTH_OF_MIRRORS_LIST - (mirrors_by_country g db).length :=
      List.length_take_le _ _
    rw [List.length_append] at hjlen
    omega
  have hflen : (db.filter fun m =>
      m.continent == g.continent && m.country == g.country &&
        m.is_expired == false).length < MAX_LENGTH_OF_MIRRORS_LIST := by
    have hAmin : (mirrors_by_country g db).length
        = min MAX_LENGTH_OF_MIRRORS_LIST (db.filter fun m =>
            m.continent == g.continent && m.country == g.country &&
              m.is_expired == false).length := by
      rw [mirrors_by_country, List.length_take]
    omega
  have hAfull : mirrors_by_country g db = db.filter fun m =>
      m.continent == g.continent && m.country == g.country &&
        m.is_expired == false := by
    rw [mirrors_by_country]
    exact List.take_of_length_le (le_of_lt hflen)
  have hM1A : M1 ∈ mirrors_by_country g db := by
    rw [hAfull, List.mem_filter]
    refine ⟨h1m, ?_⟩
    simp [h1c, h1k, h1e]
  obtain ⟨i, hi⟩ := List.mem_iff_getElem?.mp hM1A
  have hiA : i < (mirrors_by_country g db).length :=
    (List.getElem?_eq_some_iff.mp hi).1
  refine ⟨i, lt_of_lt_of_le hiA hjA, ?_⟩
  rw [List.getElem?_append_left hiA]
  exact hi

/-- Witness for C6: in the A/B/C scenario the result is
[A, A, B, A, B]; `mirrorB` occurs at position 2 and is only a Tier B/C
candidate, and the Tier A candidate `mirrorA` indeed occurs earlier. -/
theorem c6_witness :
    ∃ i : Nat, i < 2 ∧
      (_get_nearest_mirrors envProd geoDE [mirrorA, mirrorB, mirrorC] "198.51.100.7"
        false)[i]? = some mirrorA :=
  c6_tier_priority envProd geoDE [mirrorA, mirrorB, mirrorC] "198.51.100.7" false gDE
    mirrorA mirrorB rfl (by decide) rfl rfl rfl (by decide) 2 (by decide)

/-- Claim C7, counterexample: replacing the registry with the single
expired descriptor and then reading all mirrors does not yield the
non-expired subset of the descriptor set (which is empty):
`get_all_mirrors` returns the expired record too. -/
theorem c7_counterexample :
    get_all_mirrors ((update_mirrors_handler okAll dpId [descExpired] dbEmpty).snd.mirrors)
      ≠ List.filter (fun m => m.is_expired == false)
          ([descExpired].map fun d =>
            mirror_record_of_descriptor (dpId d.update_frequency) d) := by
  decide

/-- Claim C7, amended: after `update_mirrors_handler` successfully
replaces the registry with descriptor set S, `get_all_mirrors` returns
exactly the mirrors built from all of S — expired ones included — up to
order (the listing is the continent/country-sorted permutation of the
records built from S). -/
theorem c7_amended_round_trip (ok : MirrorDescriptor → Bool)
    (dateparse : String → String) (descs : List MirrorDescriptor)
    (db db2 : DBState)
    (h : (update_mirrors_handler ok dateparse descs db).fst = some db2) :
    (get_all_mirrors db2.mirrors).Perm
      (descs.map fun d => mirror_record_of_descriptor (dateparse d.update_frequency) d) := by
  unfold update_mirrors_handler at h
  cases hb : build_unit_of_work ok dateparse descs with
  | none => rw [hb] at h; simp at h
  | some ops =>
    rw [hb] at h
    simp only [Option.some.injEq] at h
    unfold build_unit_of_work at hb
    cases hio : build_insert_ops ok dateparse descs with
    | none => rw [hio] at hb; simp at hb
    | some insOps =>
      rw [hio] at hb
      have hops : SessionOp.deleteAllMirrors :: SessionOp.deleteAllUrls :: insOps
          = ops := by simpa using hb
      subst hops
      have hmir : db2.mirrors = descs.map
          (fun d => mirror_record_of_descriptor (dateparse d.update_frequency) d) := by
        rw [← h]
        show (applyOps (applyOp (applyOp db SessionOp.deleteAllMirrors)
          SessionOp.deleteAllUrls) insOps).mirrors = _
        rw [build_insert_ops_mirrors ok dateparse descs insOps _ hio]
        rfl
      rw [hmir]
      exact List.perm_insertionSort _ _

/-- Witness for C7: replacing an empty registry with the single active
descriptor and listing all mirrors yields (a permutation of) the one
record built from it. -/
theorem c7_witness :
    (get_all_mirrors ((update_mirrors_handler okAll dpId [descA] dbEmpty).snd).mirrors).Perm
      ([descA].map fun d => mirror_record_of_descriptor (dpId d.update_frequency) d) :=
  c7_amended_round_trip okAll dpId [descA] dbEmpty _ rfl

/-- Claim C8, counterexample: the unit of work does not start by
deleting the `Url` rows: even for an empty descriptor list, its first
two operations are the `Mirror` deletion followed by the `Url`
deletion, not the other way round. -/
theorem c8_counterexample :
    (build_unit_of_work okAll dpId []).map (List.take 2)
        ≠ some [SessionOp.deleteAllUrls, SessionOp.deleteAllMirrors] ∧
    (build_unit_of_work okAll dpId []).map (List.take 2)
        = some [SessionOp.deleteAllMirrors, SessionOp.deleteAllUrls] := by
  decide

/-- Claim C8, amended: the replacement pipeline first deletes every
existing Mirror and then every existing Url — in that order — before
inserting any new records: every successful unit-of-work trace starts
with the two deletions and continues with insert operations only. -/
theorem c8_amended_delete_order (ok : MirrorDescriptor → Bool)
    (dateparse : String → String) (descs : List MirrorDescriptor)
    (ops : List SessionOp)
    (h : build_unit_of_work ok dateparse descs = some ops) :
    ops.take 2 = [SessionOp.deleteAllMirrors, SessionOp.deleteAllUrls] ∧
    ∀ op ∈ ops.drop 2,
      (∃ u, op = SessionOp.addUrl u) ∨ (∃ m, op = SessionOp.addMirror m) := by
  unfold build_unit_of_work at h
  cases hio : build_insert_ops ok dateparse descs with
  | none => rw [hio] at h; simp at h
  | some insOps =>
    rw [hio] at h
    have hops : SessionOp.deleteAllMirrors :: SessionOp.deleteAllUrls :: insOps
        = ops := by simpa using h
    subst hops
    exact ⟨rfl, fun op hop => build_insert_ops_only_adds ok dateparse descs insOps hio op hop⟩

/-- Witness for C8: the amended delete order on the trace of an empty
descriptor list. -/
theorem c8_witness :
    ([SessionOp.deleteAllMirrors, SessionOp.deleteAllUrls] : List SessionOp).take 2
      = [SessionOp.deleteAllMirrors, SessionOp.deleteAllUrls] ∧
    ∀ op ∈ ([SessionOp.deleteAllMirrors, SessionOp.deleteAllUrls] : List SessionOp).drop 2,
      (∃ u, op = SessionOp.addUrl u) ∨ (∃ m, op = SessionOp.addMirror m) :=
  c8_amended_delete_order okAll dpId [] [SessionOp.deleteAllMirrors, SessionOp.deleteAllUrls] rfl

/-- Claim C9, counterexample: a non-expired mirror with neither required
protocol is selected together with a healthy mirror, and its presence
makes `get_mirrors_list` fail with the `os.path.join(None, ...)` type
error instead of returning the path of the healthy mirror. -/
theorem c9_counterexample :
    get_mirrors_list envProd geoNone [mirrorNoProto, mirrorA] ["8"]
        [("AppStream", "AppStream/x86_64/os/")] "203.0.113.9" "8" "AppStream"
      = Except.error HandlerFailure.type_error ∧
    mirrorA ∈ _get_nearest_mirrors envProd geoNone [mirrorNoProto, mirrorA]
      "203.0.113.9" false := by
  exact ⟨rfl, by decide⟩

/-- Claim C9, amended: a stored non-expired mirror that exposes neither
required protocol is never turned into a download path — but not by
being skipped: whenever such a mirror is among the selected mirrors
(and the version and repository are valid), `get_mirrors_list` aborts
with a type error, so the paths of the other selected mirrors are not
returned either. -/
theorem c9_amended_no_protocol_aborts (env : Env) (geo : String → Option GeoData)
    (db : List Mirror) (versions : List String) (repos : List (String × String))
    (ip version repository repo_path : String) (M : Mirror)
    (hv : versions.contains version = true)
    (hr : List.lookup repository repos = some repo_path)
    (hM : M ∈ _get_nearest_mirrors env geo db ip false)
    (h0 : List.lookup "https" M.urls = none)
    (h1 : List.lookup "http" M.urls = none) :
    get_mirrors_list env geo db versions repos ip version repository
      = Except.error HandlerFailure.type_error := by
  have hnone : mapOpt (fun m =>
      ((List.lookup (REQUIRED_MIRROR_PROTOCOLS[0]!) m.urls).orElse
        (fun _ => List.lookup (REQUIRED_MIRROR_PROTOCOLS[1]!) m.urls)).map
        (fun mirror_url => path_join [mirror_url, version, repo_path]))
      (_get_nearest_mirrors env geo db ip false) = none := by
    apply mapOpt_eq_none_of_mem hM
    show ((List.lookup "https" M.urls).orElse
      (fun _ => List.lookup "http" M.urls)).map _ = none
    rw [h0, h1]
    rfl
  unfold get_mirrors_list
  split
  · rename_i hcond
    rw [hv] at hcond
    simp at hcond
  · split
    · rename_i heq
      rw [hr] at heq
      simp at heq
    · rename_i rp heq
      rw [hr] at heq
      have hrp : rp = repo_path := by
        simpa using heq.symm
      subst hrp
      split
      · rfl
      · rename_i l hmap
        rw [hnone] at hmap
        simp at hmap

/-- Witness for C9: the abort at a one-mirror registry whose only mirror
lacks both required protocols. -/
theorem c9_witness :
    get_mirrors_list envProd geoNone [mirrorNoProto] ["8"]
        [("AppStream", "AppStream/x86_64/os/")] "203.0.113.9" "8" "AppStream"
      = Except.error HandlerFailure.type_error :=
  c9_amended_no_protocol_aborts envProd geoNone [mirrorNoProto] ["8"]
    [("AppStream", "AppStream/x86_64/os/")] "203.0.113.9" "8" "AppStream"
    "AppStream/x86_64/os/" mirrorNoProto rfl rfl (by decide) rfl rfl

/-- Claim C10 (confirmed): in a Dev or Development environment the
result of the selector does not depend on the caller-supplied address: the
address is replaced before resolution, so any two addresses give the
same list for the same registry and resolver. -/
theorem c10_dev_ip_independent (env : Env) (geo : String → Option GeoData)
    (db : List Mirror) (ip1 ip2 : String) (b : Bool)
    (h : env.deploy_environment = some "Dev" ∨
      env.deploy_environment = some "Development") :
    _get_nearest_mirrors env geo db ip1 b = _get_nearest_mirrors env geo db ip2 b := by
  have he : effectiveIp env ip1 = effectiveIp env ip2 := by
    unfold effectiveIp
    rw [if_pos h, if_pos h]
  unfold _get_nearest_mirrors
  rw [he]

/-- Witness for C10: in `envDev` two different caller addresses give the
same selector output. -/
theorem c10_witness :
    _get_nearest_mirrors envDev geoDE [mirrorA, mirrorB] "1.1.1.1" false
      = _get_nearest_mirrors envDev geoDE [mirrorA, mirrorB] "2.2.2.2" false :=
  c10_dev_ip_independent envDev geoDE [mirrorA, mirrorB] "1.1.1.1" "2.2.2.2" false
    (Or.inl rfl)
